import Mathlib

/-!
Shallow embedding of the SEM-DPOM e-commerce backend's core data model and
operations: the cart service (`cart.controller.js`), the order-placement
workflow (`order.controller.js`, the revision that pre-checks the whole cart
before writing), and the stock-reconciliation helpers
(`product.controller.js`: `restockVariant`, `calculateTotalStock`).

Document stores are lists of records; `findOne`/`findById` are first-match
list searches and `save`/`findByIdAndUpdate` replace the first matching
record, mirroring MongoDB's behaviour on the `_id`-keyed collections.
JavaScript numbers holding quantities and prices are modelled as `Int`.
-/

namespace SemDpom

/-- Product document: `price` and `stock` are used by the cart controller,
`totalStock` is the denormalized aggregate maintained by the product
controller. -/
structure Product where
  id : Nat
  title : String
  price : Int
  stock : Int
  totalStock : Int
deriving Repr, DecidableEq

/-- ProductVariant document (`productId`, `size`, `color`, `quantity`). -/
structure Variant where
  id : Nat
  productId : Nat
  size : String
  color : String
  quantity : Int
deriving Repr, DecidableEq

/-- Replace the first element satisfying `p` by its image under `f`
(how a Mongoose `findOne`/`findById` followed by `save` or a
`findByIdAndUpdate` acts on a collection). -/
def updateFirst (p : α → Bool) (f : α → α) : List α → List α
  | [] => []
  | x :: xs => if p x then f x :: xs else x :: updateFirst p f xs

/-! ## Cart controller (`cart.controller.js`, revisions in the main file and
in the server bundle) -/

namespace CartCtrl

/-- Cart line entry `{ product, quantity }` as used by the cart controller. -/
structure CartItem where
  product : Nat
  quantity : Int
deriving Repr, DecidableEq

/-- Cart document `{ user, items, totalAmount }`. -/
structure Cart where
  user : Nat
  items : List CartItem
  totalAmount : Int
deriving Repr, DecidableEq

/-- State touched by the cart controller: the product and cart collections. -/
structure St where
  products : List Product
  carts : List Cart
deriving Repr, DecidableEq

/-- Error responses produced by the cart controller handlers. -/
inductive Resp where
  /-- 400 'Product ID and quantity are required'. -/
  | missingFields
  /-- 404 'Product not found'. -/
  | productNotFound
  /-- 400 'Insufficient stock'. -/
  | insufficientStock
  /-- 404 'Cart not found'. -/
  | cartNotFound
  /-- 404 'Item not found in cart'. -/
  | itemNotFound
  /-- 500 internal error (a thrown exception, e.g. a cart line whose product
  no longer exists dereferenced inside `calculateTotal`). -/
  | internalError
deriving Repr, DecidableEq

/-- Model of `Product.findById`. -/
def findProduct (ps : List Product) (pid : Nat) : Option Product :=
  ps.find? (fun p => p.id == pid)

/-- Model of `Cart.findOne({ user })`. -/
def findCart (cs : List Cart) (uid : Nat) : Option Cart :=
  cs.find? (fun c => c.user == uid)

/-- Sequential for-loop revision of `calculateTotal` (cart.controller.js
lines 89-96): the running total accumulates `product.price * item.quantity`;
a missing product makes the loop throw (`none`). -/
def calcLoop (ps : List Product) (total : Int) : List CartItem → Option Int
  | [] => some total
  | it :: rest =>
    match findProduct ps it.product with
    | none => none
    | some p => calcLoop ps (total + p.price * it.quantity) rest

/-- The for-loop `calculateTotal` entry point. -/
def calculateTotal (ps : List Product) (items : List CartItem) : Option Int :=
  calcLoop ps 0 items

/-- Sequential reduce over the item/fetched-product pairs, as the `reduce`
callback of the Promise.all revision executes (accumulator seeded with 0,
`products[index].price` dereferenced per step; a `null` product throws). -/
def reduceTotal (total : Int) : List (CartItem × Option Product) → Option Int
  | [] => some total
  | (it, op) :: rest =>
    match op with
    | none => none
    | some p => reduceTotal (total + p.price * it.quantity) rest

/-- Promise.all map-then-reduce revision of `calculateTotal` (server-bundle
cart controller lines 275-283): all `Product.findById` results are gathered
first, then reduced in item order. -/
def calculateTotalV2 (ps : List Product) (items : List CartItem) : Option Int :=
  reduceTotal 0 (items.zip (items.map (fun it => findProduct ps it.product)))

/-- Merge step of `addToCart`: bump the first existing line for the product,
or push a new line at the end. -/
def mergeAdd (items : List CartItem) (pid : Nat) (q : Int) : List CartItem :=
  if items.any (fun it => it.product == pid) then
    updateFirst (fun it => it.product == pid)
      (fun it => { it with quantity := it.quantity + q }) items
  else
    items ++ [{ product := pid, quantity := q }]

/-- Lazy cart creation (`Cart.findOne` falling back to `Cart.create` with an
empty item list): returns the store after the possible create together with
the cart document in hand. -/
def getOrCreateCart (st : St) (userId : Nat) : St × Cart :=
  match findCart st.carts userId with
  | some c => (st, c)
  | none =>
    let c : Cart := { user := userId, items := [], totalAmount := 0 }
    ({ st with carts := st.carts ++ [c] }, c)

/-- Model of `addToCart` (cart.controller.js lines 19-55; the server-bundle
revision lines 178-215 is identical logic): validates the body (a quantity of
0 is falsy, ids stand for non-empty id strings), 404s on a missing product,
400s when `product.stock < quantity`, lazily creates the cart, merges or
appends the line, recomputes `totalAmount`, saves. The returned state is the
store as of the response (a lazily created empty cart persists even if
`calculateTotal` later throws). -/
def addToCart (st : St) (userId : Nat) (productId : Nat) (quantity : Int) :
    St × Except Resp Cart :=
  if quantity == 0 then (st, .error .missingFields)
  else
    match findProduct st.products productId with
    | none => (st, .error .productNotFound)
    | some product =>
      if product.stock < quantity then (st, .error .insufficientStock)
      else
        let st1 := (getOrCreateCart st userId).1
        let cart := (getOrCreateCart st userId).2
        let newItems := mergeAdd cart.items productId quantity
        match calculateTotal st1.products newItems with
        | none => (st1, .error .internalError)
        | some total =>
          let c' : Cart := { cart with items := newItems, totalAmount := total }
          ({ st1 with
              carts := updateFirst (fun c => c.user == userId) (fun _ => c') st1.carts },
            .ok c')

/-- Model of `updateCartItem` (cart.controller.js lines 57-87): 404 if the
cart or the line is missing, quantity 0 removes the line, otherwise the first
matching line's quantity is overwritten; `totalAmount` is recomputed and the
cart saved. -/
def updateCartItem (st : St) (userId : Nat) (productId : Nat) (quantity : Int) :
    St × Except Resp Cart :=
  match findCart st.carts userId with
  | none => (st, .error .cartNotFound)
  | some cart =>
    if cart.items.any (fun it => it.product == productId) then
      let newItems :=
        if quantity == 0 then
          cart.items.eraseP (fun it => it.product == productId)
        else
          updateFirst (fun it => it.product == productId)
            (fun it => { it with quantity := quantity }) cart.items
      match calculateTotal st.products newItems with
      | none => (st, .error .internalError)
      | some total =>
        let c' : Cart := { cart with items := newItems, totalAmount := total }
        ({ st with
            carts := updateFirst (fun c => c.user == userId) (fun _ => c') st.carts },
          .ok c')
    else (st, .error .itemNotFound)

/-- Value of one cart line under the current product prices (0 for a dangling
product reference; on every successful mutation all referenced products
exist, so the default never contributes there). -/
def lineTotal (ps : List Product) (it : CartItem) : Int :=
  match findProduct ps it.product with
  | some p => p.price * it.quantity
  | none => 0

end CartCtrl

/-! ## Order controller (`order.controller.js`, the revision at lines 235-313
that pre-checks the entire cart before writing) and the product controller's
stock reconciliation (`product.controller.js` lines 519-636). -/

namespace OrderCtrl

/-- Cart line entry `{ productVariant, quantity }` as stored by the cart used
by the order controller. -/
structure CartItem where
  productVariant : Nat
  quantity : Int
deriving Repr, DecidableEq

/-- Cart document `{ user, items, totalAmount }`. -/
structure Cart where
  user : Nat
  items : List CartItem
  totalAmount : Int
deriving Repr, DecidableEq

/-- Order document created by `Order.create`. -/
structure Order where
  id : Nat
  userId : Nat
  total : Int
  status : String
  shippingAddress : String
deriving Repr, DecidableEq

/-- OrderProduct (order line item) document. -/
structure OrderProduct where
  orderId : Nat
  productId : Nat
  quantity : Int
  price : Int
deriving Repr, DecidableEq

/-- Entry of the in-memory `orderItems` array built by the validation loop. -/
structure OrderItem where
  productId : Nat
  quantity : Int
  price : Int
deriving Repr, DecidableEq

/-- The five collections touched by order placement and stock reconciliation,
plus a fresh-id counter standing for MongoDB's `_id` generation. -/
structure DB where
  products : List Product
  variants : List Variant
  carts : List Cart
  orders : List Order
  orderProducts : List OrderProduct
  nextOrderId : Nat
deriving Repr, DecidableEq

/-- Error responses of `createOrder` and the product-controller handlers. -/
inductive Resp where
  /-- 404 'Cart not found'. -/
  | cartNotFound
  /-- 400 'Cart is empty. Cannot create an order.'. -/
  | emptyCart
  /-- 404 'Product variant not found'. -/
  | variantNotFound
  /-- 400 'Insufficient stock for variant of product ID {productId}'. -/
  | insufficientStock (productId : Nat)
  /-- 404 'Product not found'. -/
  | productNotFound
  /-- 400 'Please provide valid productId, size, color, and quantity greater
  than 0'. -/
  | invalidInput
deriving Repr, DecidableEq

/-- Model of `Cart.findOne({ user })`. -/
def findCart (cs : List Cart) (uid : Nat) : Option Cart :=
  cs.find? (fun c => c.user == uid)

/-- Model of `ProductVariant.findById`. -/
def findVariant (vs : List Variant) (vid : Nat) : Option Variant :=
  vs.find? (fun v => v.id == vid)

/-- Model of `Product.findById`. -/
def findProduct (ps : List Product) (pid : Nat) : Option Product :=
  ps.find? (fun p => p.id == pid)

/-- Validation loop of `createOrder` (lines 250-275): per cart line, resolve
the variant (404 when missing), reject when `productVariant.quantity <
item.quantity` (400 insufficient stock), resolve the product for its current
price (404 when missing), and accumulate the `orderItems` entry. The loop
only reads; no write happens on any of its paths. -/
def buildOrderItems (db : DB) : List CartItem → Except Resp (List OrderItem)
  | [] => .ok []
  | it :: rest =>
    match findVariant db.variants it.productVariant with
    | none => .error .variantNotFound
    | some v =>
      if v.quantity < it.quantity then
        .error (.insufficientStock v.productId)
      else
        match findProduct db.products v.productId with
        | none => .error .productNotFound
        | some p =>
          match buildOrderItems db rest with
          | .error e => .error e
          | .ok tail =>
            .ok ({ productId := v.productId, quantity := it.quantity,
                   price := p.price } :: tail)

/-- Stock decrement loop of `createOrder` (lines 298-302):
`ProductVariant.findByIdAndUpdate(item.productVariant, { $inc: { quantity:
-item.quantity } })` for each cart line in order. -/
def decrementVariants (vs : List Variant) (items : List CartItem) : List Variant :=
  items.foldl
    (fun acc it =>
      updateFirst (fun v => v.id == it.productVariant)
        (fun v => { v with quantity := v.quantity - it.quantity }) acc)
    vs

/-- Model of `createOrder` (order.controller.js lines 235-313): load the
cart (404 when absent), reject an empty cart (400), run the validation loop,
then — only when every check passed — create the Order (status 'Pending',
total taken from the cart's cached `totalAmount`), create one OrderProduct
per `orderItems` entry, decrement each variant's quantity, and clear the
cart. The returned state is the store as of the response. -/
def createOrder (db : DB) (userId : Nat) (shippingAddress : String) :
    DB × Except Resp Order :=
  match findCart db.carts userId with
  | none => (db, .error .cartNotFound)
  | some cart =>
    if cart.items.length == 0 then (db, .error .emptyCart)
    else
      match buildOrderItems db cart.items with
      | .error e => (db, .error e)
      | .ok orderItems =>
        let order : Order :=
          { id := db.nextOrderId, userId := userId, total := cart.totalAmount,
            status := "Pending", shippingAddress := shippingAddress }
        let newOrderProducts := orderItems.map
          (fun it => { orderId := order.id, productId := it.productId,
                       quantity := it.quantity, price := it.price : OrderProduct })
        let db1 : DB :=
          { db with
              orders := db.orders ++ [order],
              nextOrderId := db.nextOrderId + 1,
              orderProducts := db.orderProducts ++ newOrderProducts }
        let db2 : DB := { db1 with variants := decrementVariants db1.variants cart.items }
        let db3 : DB :=
          { db2 with
              carts := updateFirst (fun c => c.user == userId)
                (fun c => { c with items := [], totalAmount := 0 }) db2.carts }
        (db3, .ok order)

/-- Sum of the quantities of a list of variants (the
`variants.reduce((total, variant) => total + variant.quantity, 0)`
aggregation). -/
def sumQuantities (vs : List Variant) : Int :=
  (vs.map (fun v => v.quantity)).sum

/-- Aggregate stock of one product: sum over the variants whose `productId`
matches. -/
def aggregateStock (vs : List Variant) (pid : Nat) : Int :=
  sumQuantities (vs.filter (fun v => v.productId == pid))

/-- Model of `ProductVariant.findOne({ productId, size, color })`. -/
def findVariantBy (vs : List Variant) (pid : Nat) (size color : String) :
    Option Variant :=
  vs.find? (fun v => v.productId == pid && v.size == size && v.color == color)

/-- Model of `restockVariant` (product.controller.js lines 593-636): reject a
missing/empty field or a non-positive quantity (400), find the variant by
(productId, size, color) (404 when absent), increment its quantity, save it,
and — when the parent product exists — recompute its `totalStock` as the sum
of its variants' quantities. -/
def restockVariant (db : DB) (productId : Nat) (size color : String)
    (quantity : Int) : DB × Except Resp Variant :=
  if size = "" ∨ color = "" ∨ quantity ≤ 0 then (db, .error .invalidInput)
  else
    match findVariantBy db.variants productId size color with
    | none => (db, .error .variantNotFound)
    | some v =>
      let v' : Variant := { v with quantity := v.quantity + quantity }
      let db1 : DB :=
        { db with variants := updateFirst (fun w => w.id == v.id) (fun _ => v') db.variants }
      match findProduct db.products productId with
      | none => (db1, .ok v')
      | some p =>
        let p' : Product := { p with totalStock := aggregateStock db1.variants productId }
        let db2 : DB :=
          { db1 with products := updateFirst (fun r => r.id == p.id) (fun _ => p') db.products }
        (db2, .ok v')

/-- Model of `calculateTotalStock` (product.controller.js lines 519-535): for
every product, recompute `totalStock` from the variant collection and save;
nothing else changes. -/
def calculateTotalStock (db : DB) : DB :=
  { db with
      products := db.products.map
        (fun p => { p with totalStock := aggregateStock db.variants p.id }) }

/-- Total quantity a cart orders against one variant id (several lines may
reference the same variant; their decrements accumulate). -/
def orderedQty (items : List CartItem) (vid : Nat) : Int :=
  ((items.filter (fun it => it.productVariant == vid)).map (fun it => it.quantity)).sum

/-- Value of one cart line at the prices current in `db` (0 when the variant
or product is dangling; on a successful `createOrder` both exist). -/
def lineCurrent (db : DB) (it : CartItem) : Int :=
  match findVariant db.variants it.productVariant with
  | none => 0
  | some v =>
    match findProduct db.products v.productId with
    | none => 0
    | some p => p.price * it.quantity

/-- Sum of the cart lines at the prices current in `db`. -/
def currentItemsSum (db : DB) (items : List CartItem) : Int :=
  (items.map (lineCurrent db)).sum

/-- Sum over order line items of (unit price snapshot × quantity). -/
def orderProductsSum (ops : List OrderProduct) : Int :=
  (ops.map (fun op => op.price * op.quantity)).sum

/-- Recognizer for a 400 insufficient-stock failure (the product id carried
in the message may vary with the offending line). -/
def isInsufficientStockFailure : Except Resp α → Bool
  | .error (.insufficientStock _) => true
  | _ => false

end OrderCtrl

/-! ## Concrete stores used by witnesses and counterexamples -/

namespace Fix

/-- Cart-controller store: one product with stock 5 and price 10; user 7's
cart already holds 3 units of it. -/
def cartSt : CartCtrl.St :=
  { products := [{ id := 1, title := "Shirt", price := 10, stock := 5, totalStock := 5 }],
    carts := [{ user := 7, items := [{ product := 1, quantity := 3 }], totalAmount := 30 }] }

/-- Order store: product 1 (price 10, aggregate in sync), variant 11 with
stock 5; user 7's cart wants 2 units but carries a stale cached total of 30;
user 8's cart is empty. -/
def orderDb : OrderCtrl.DB :=
  { products := [{ id := 1, title := "Shirt", price := 10, stock := 0, totalStock := 5 }],
    variants := [{ id := 11, productId := 1, size := "M", color := "red", quantity := 5 }],
    carts := [{ user := 7, items := [{ productVariant := 11, quantity := 2 }], totalAmount := 30 },
              { user := 8, items := [], totalAmount := 0 }],
    orders := [], orderProducts := [], nextOrderId := 0 }

/-- Like `orderDb` but with the cached cart total in sync with the current
prices (2 units at price 10). -/
def orderDbSync : OrderCtrl.DB :=
  { products := [{ id := 1, title := "Shirt", price := 10, stock := 0, totalStock := 5 }],
    variants := [{ id := 11, productId := 1, size := "M", color := "red", quantity := 5 }],
    carts := [{ user := 7, items := [{ productVariant := 11, quantity := 2 }], totalAmount := 20 }],
    orders := [], orderProducts := [], nextOrderId := 0 }

/-- Order store realizing the spec's insufficiency scenario: the cart line
wants 10 units, the variant holds 4. -/
def orderDbShort : OrderCtrl.DB :=
  { products := [{ id := 1, title := "Shirt", price := 10, stock := 0, totalStock := 4 }],
    variants := [{ id := 11, productId := 1, size := "M", color := "red", quantity := 4 }],
    carts := [{ user := 7, items := [{ productVariant := 11, quantity := 10 }], totalAmount := 100 }],
    orders := [], orderProducts := [], nextOrderId := 0 }

/-- Store for the restock scenarios: product 1 with two variants (5 and 2
units), aggregate in sync. -/
def restockDb : OrderCtrl.DB :=
  { products := [{ id := 1, title := "Shirt", price := 10, stock := 0, totalStock := 7 }],
    variants := [{ id := 11, productId := 1, size := "M", color := "red", quantity := 5 },
                 { id := 12, productId := 1, size := "L", color := "blue", quantity := 2 }],
    carts := [], orders := [], orderProducts := [], nextOrderId := 0 }

end Fix

/-! ## Lemmas about first-match updates -/

theorem find?_updateFirst_same (p : α → Bool) (f : α → α)
    (hf : ∀ x, p x = true → p (f x) = true) (l : List α) :
    (updateFirst p f l).find? p = (l.find? p).map f := by
  induction l with
  | nil => rfl
  | cons x xs ih =>
    by_cases hx : p x = true
    · rw [updateFirst, if_pos hx, List.find?_cons_of_pos _ (hf x hx),
        List.find?_cons_of_pos _ hx]
      rfl
    · rw [updateFirst, if_neg hx, List.find?_cons_of_neg _ hx,
        List.find?_cons_of_neg _ hx, ih]

theorem find?_updateFirst_other (p q : α → Bool) (f : α → α)
    (hpq : ∀ x, p x = true → q x = false)
    (hfq : ∀ x, q (f x) = q x) (l : List α) :
    (updateFirst p f l).find? q = l.find? q := by
  induction l with
  | nil => rfl
  | cons x xs ih =>
    by_cases hx : p x = true
    · have hqx : ¬ q x = true := by simp [hpq x hx]
      have hqfx : ¬ q (f x) = true := by simp [hfq, hpq x hx]
      rw [updateFirst, if_pos hx, List.find?_cons_of_neg _ hqfx,
        List.find?_cons_of_neg _ hqx]
    · by_cases hq : q x = true
      · rw [updateFirst, if_neg hx, List.find?_cons_of_pos _ hq,
          List.find?_cons_of_pos _ hq]
      · rw [updateFirst, if_neg hx, List.find?_cons_of_neg _ hq,
          List.find?_cons_of_neg _ hq, ih]

/-! ## Cart controller lemmas -/

namespace CartCtrl

theorem calcLoop_eq_reduceTotal (ps : List Product) (items : List CartItem) (t : Int) :
    calcLoop ps t items =
      reduceTotal t (items.zip (items.map (fun it => findProduct ps it.product))) := by
  induction items generalizing t with
  | nil => rfl
  | cons it rest ih =>
    cases h : findProduct ps it.product with
    | none => simp [calcLoop, reduceTotal, h, List.zip]
    | some p => simp [calcLoop, reduceTotal, h, ih, List.zip]

theorem calcLoop_some (ps : List Product) (items : List CartItem) (t total : Int)
    (h : calcLoop ps t items = some total) :
    total = t + (items.map (lineTotal ps)).sum ∧
      ∀ it ∈ items, (findProduct ps it.product).isSome = true := by
  induction items generalizing t with
  | nil =>
    simp only [calcLoop, Option.some.injEq] at h
    simp [← h]
  | cons it rest ih =>
    cases hf : findProduct ps it.product with
    | none => simp [calcLoop, hf] at h
    | some p =>
      simp only [calcLoop, hf] at h
      obtain ⟨h1, h2⟩ := ih _ h
      refine ⟨?_, ?_⟩
      · rw [h1]
        simp [lineTotal, hf]
        ring
      · intro x hx
        rcases List.mem_cons.mp hx with rfl | hx'
        · simp [hf]
        · exact h2 x hx'

theorem calculateTotal_some (ps : List Product) (items : List CartItem) (total : Int)
    (h : calculateTotal ps items = some total) :
    total = (items.map (lineTotal ps)).sum ∧
      ∀ it ∈ items, (findProduct ps it.product).isSome = true := by
  have h' := calcLoop_some ps items 0 total h
  simpa using h'

theorem getOrCreateCart_products (st : St) (uid : Nat) :
    (getOrCreateCart st uid).1.products = st.products := by
  unfold getOrCreateCart
  cases hc : findCart st.carts uid with
  | none => simp only [hc]
  | some c => simp only [hc]

theorem getOrCreateCart_user_beq (st : St) (uid : Nat) :
    ((getOrCreateCart st uid).2.user == uid) = true := by
  unfold getOrCreateCart
  cases hc : findCart st.carts uid with
  | none => simp [hc]
  | some c =>
    simp only [hc]
    unfold findCart at hc
    simpa using List.find?_some hc

theorem findCart_getOrCreateCart (st : St) (uid : Nat) :
    findCart (getOrCreateCart st uid).1.carts uid = some (getOrCreateCart st uid).2 := by
  unfold getOrCreateCart
  cases hc : findCart st.carts uid with
  | none =>
    simp only [hc]
    unfold findCart at hc ⊢
    rw [List.find?_append, hc]
    simp
  | some c => simp only [hc]

theorem addToCart_ok_shape (st : St) (uid pid : Nat) (q : Int) (st' : St) (c' : Cart)
    (h : addToCart st uid pid q = (st', .ok c')) :
    ∃ product total,
      findProduct st.products pid = some product ∧
      ¬ product.stock < q ∧
      calculateTotal st.products (mergeAdd (getOrCreateCart st uid).2.items pid q) =
        some total ∧
      c' = { user := (getOrCreateCart st uid).2.user,
             items := mergeAdd (getOrCreateCart st uid).2.items pid q,
             totalAmount := total } ∧
      st'.products = st.products ∧
      st'.carts = updateFirst (fun c => c.user == uid) (fun _ => c')
        (getOrCreateCart st uid).1.carts := by
  unfold addToCart at h
  by_cases hq : (q == 0) = true
  · rw [if_pos hq] at h
    simp at h
  · rw [if_neg hq] at h
    cases hf : findProduct st.products pid with
    | none => simp only [hf] at h; simp at h
    | some product =>
      simp only [hf] at h
      by_cases hs : product.stock < q
      · rw [if_pos hs] at h
        simp at h
      · rw [if_neg hs] at h
        rw [getOrCreateCart_products] at h
        cases hct : calculateTotal st.products
            (mergeAdd (getOrCreateCart st uid).2.items pid q) with
        | none => simp only [hct] at h; simp at h
        | some total =>
          simp only [hct, Prod.mk.injEq, Except.ok.injEq] at h
          obtain ⟨h1, h2⟩ := h
          subst h2
          subst h1
          exact ⟨product, total, rfl, hs, rfl, rfl, rfl, rfl⟩

theorem updateCartItem_ok_shape (st : St) (uid pid : Nat) (q : Int) (st' : St) (c' : Cart)
    (h : updateCartItem st uid pid q = (st', .ok c')) :
    ∃ cart total,
      findCart st.carts uid = some cart ∧
      calculateTotal st.products
        (if (q == 0) = true then cart.items.eraseP (fun it => it.product == pid)
         else updateFirst (fun it => it.product == pid)
           (fun it => { it with quantity := q }) cart.items) = some total ∧
      c' = { user := cart.user,
             items :=
               if (q == 0) = true then cart.items.eraseP (fun it => it.product == pid)
               else updateFirst (fun it => it.product == pid)
                 (fun it => { it with quantity := q }) cart.items,
             totalAmount := total } ∧
      st'.products = st.products ∧
      st'.carts = updateFirst (fun c => c.user == uid) (fun _ => c') st.carts := by
  unfold updateCartItem at h
  cases hc : findCart st.carts uid with
  | none => simp only [hc] at h; simp at h
  | some cart =>
    simp only [hc] at h
    by_cases hin : (cart.items.any fun it => it.product == pid) = true
    · rw [if_pos hin] at h
      by_cases hq : (q == 0) = true
      · rw [if_pos hq] at h
        cases hct : calculateTotal st.products
            (cart.items.eraseP (fun it => it.product == pid)) with
        | none => simp only [hct] at h; simp at h
        | some total =>
          simp only [hct, Prod.mk.injEq, Except.ok.injEq] at h
          obtain ⟨h1, h2⟩ := h
          subst h2
          subst h1
          exact ⟨cart, total, rfl, by rw [if_pos hq]; exact hct, by rw [if_pos hq], rfl, rfl⟩
      · rw [if_neg hq] at h
        cases hct : calculateTotal st.products
            (updateFirst (fun it => it.product == pid)
              (fun it => { it with quantity := q }) cart.items) with
        | none => simp only [hct] at h; simp at h
        | some total =>
          simp only [hct, Prod.mk.injEq, Except.ok.injEq] at h
          obtain ⟨h1, h2⟩ := h
          subst h2
          subst h1
          exact ⟨cart, total, rfl, by rw [if_neg hq]; exact hct, by rw [if_neg hq], rfl, rfl⟩
    · rw [if_neg hin] at h
      simp at h

end CartCtrl

/-! ## Claims about the cart controller -/

/-- C10: the two revisions of the cart total helper `calculateTotal` — the
sequential for-loop accumulation and the Promise.all map-then-reduce version
— return the same total for every list of cart lines and every assignment of
prices to the referenced products (including agreeing on failure when a
referenced product is missing). -/
theorem C10_calculateTotal_revisions_agree (ps : List Product)
    (items : List CartCtrl.CartItem) :
    CartCtrl.calculateTotal ps items = CartCtrl.calculateTotalV2 ps items :=
  CartCtrl.calcLoop_eq_reduceTotal ps items 0

/-- C6: after every successful `addToCart` or `updateCartItem`, the cart
stored for the user is the returned one, the product store is untouched,
every remaining line's product exists, and `totalAmount` equals the sum over
the remaining lines of (line quantity × current price of the line's product,
re-read from the product store at mutation time). -/
theorem C6_cart_total_invariant :
    (∀ st uid pid q st' c',
        CartCtrl.addToCart st uid pid q = (st', .ok c') →
        st'.products = st.products ∧
        CartCtrl.findCart st'.carts uid = some c' ∧
        (∀ it ∈ c'.items, (CartCtrl.findProduct st'.products it.product).isSome = true) ∧
        c'.totalAmount = (c'.items.map (CartCtrl.lineTotal st'.products)).sum) ∧
    (∀ st uid pid q st' c',
        CartCtrl.updateCartItem st uid pid q = (st', .ok c') →
        st'.products = st.products ∧
        CartCtrl.findCart st'.carts uid = some c' ∧
        (∀ it ∈ c'.items, (CartCtrl.findProduct st'.products it.product).isSome = true) ∧
        c'.totalAmount = (c'.items.map (CartCtrl.lineTotal st'.products)).sum) := by
  constructor
  · intro st uid pid q st' c' h
    obtain ⟨product, total, hf, hs, hct, hc', hsp, hsc⟩ :=
      CartCtrl.addToCart_ok_shape st uid pid q st' c' h
    obtain ⟨htot, hall⟩ := CartCtrl.calculateTotal_some _ _ _ hct
    have huser : (c'.user == uid) = true := by
      rw [hc']
      exact CartCtrl.getOrCreateCart_user_beq st uid
    refine ⟨hsp, ?_, ?_, ?_⟩
    · rw [hsc]
      unfold CartCtrl.findCart
      rw [find?_updateFirst_same (fun c => c.user == uid) (fun _ => c')
        (fun x _ => huser)]
      rw [show (CartCtrl.getOrCreateCart st uid).1.carts.find?
            (fun c => c.user == uid) =
          CartCtrl.findCart (CartCtrl.getOrCreateCart st uid).1.carts uid from rfl]
      rw [CartCtrl.findCart_getOrCreateCart]
      rfl
    · rw [hsp, hc']
      exact hall
    · rw [hsp, hc']
      exact htot
  · intro st uid pid q st' c' h
    obtain ⟨cart, total, hc, hct, hc', hsp, hsc⟩ :=
      CartCtrl.updateCartItem_ok_shape st uid pid q st' c' h
    obtain ⟨htot, hall⟩ := CartCtrl.calculateTotal_some _ _ _ hct
    have huser : (c'.user == uid) = true := by
      rw [hc']
      have hc2 := hc
      unfold CartCtrl.findCart at hc2
      simpa using List.find?_some hc2
    refine ⟨hsp, ?_, ?_, ?_⟩
    · rw [hsc]
      unfold CartCtrl.findCart
      rw [find?_updateFirst_same (fun c => c.user == uid) (fun _ => c')
        (fun x _ => huser)]
      rw [show st.carts.find? (fun c => c.user == uid) =
          CartCtrl.findCart st.carts uid from rfl]
      rw [hc]
      rfl
    · rw [hsp, hc']
      exact hall
    · rw [hsp, hc']
      exact htot

/-- Witness for C6: adding 2 more units of product 1 (price 10) to user 7's
cart, which already holds 3, yields the stored cart with 5 units and
`totalAmount` 50 = 5 × 10. -/
theorem C6_witness :
    CartCtrl.findCart (CartCtrl.addToCart Fix.cartSt 7 1 2).1.carts 7 =
      some { user := 7, items := [{ product := 1, quantity := 5 }], totalAmount := 50 } :=
  (C6_cart_total_invariant.1 Fix.cartSt 7 1 2
    (CartCtrl.addToCart Fix.cartSt 7 1 2).1
    { user := 7, items := [{ product := 1, quantity := 5 }], totalAmount := 50 }
    rfl).2.1

/-- C4 as stated fails on the code: with product stock 5 and 3 units already
in user 7's cart, adding 3 more (existing 3 + 3 = 6 > 5) does not fail with
InsufficientStock — it succeeds and stores a line of 6 units, because the
handler compares only the incoming quantity against `product.stock` and
ignores the quantity already in the cart. -/
theorem C4_counterexample :
    (3 : Int) + 3 > 5 ∧
    (CartCtrl.addToCart Fix.cartSt 7 1 3).2 =
      .ok { user := 7, items := [{ product := 1, quantity := 6 }], totalAmount := 60 } :=
  ⟨by decide, rfl⟩

/-- C4 (amended): for a non-zero requested quantity, `addToCart` fails with
NotFound when the product (the check is against the product record, not a
variant) does not exist; it fails with InsufficientStock exactly when the
requested quantity alone exceeds `product.stock` (the quantity already in
the cart is ignored); and on success it merges into the first existing line
or appends a new line. -/
theorem C4_amended_addToCart (st : CartCtrl.St) (uid pid : Nat) (q : Int)
    (hq : (q == 0) = false) :
    (CartCtrl.findProduct st.products pid = none →
        CartCtrl.addToCart st uid pid q = (st, .error .productNotFound)) ∧
    (∀ p, CartCtrl.findProduct st.products pid = some p →
        ((CartCtrl.addToCart st uid pid q).2 = .error .insufficientStock ↔
          p.stock < q)) ∧
    (∀ st' c', CartCtrl.addToCart st uid pid q = (st', .ok c') →
        c'.items = CartCtrl.mergeAdd (CartCtrl.getOrCreateCart st uid).2.items pid q) := by
  have hq' : ¬ ((q == 0) = true) := by simp [hq]
  refine ⟨?_, ?_, ?_⟩
  · intro hf
    unfold CartCtrl.addToCart
    rw [if_neg hq']
    simp only [hf]
  · intro p hp
    constructor
    · intro h
      by_cases hs : p.stock < q
      · exact hs
      · exfalso
        unfold CartCtrl.addToCart at h
        rw [if_neg hq'] at h
        simp only [hp] at h
        rw [if_neg hs] at h
        cases hct : CartCtrl.calculateTotal (CartCtrl.getOrCreateCart st uid).1.products
            (CartCtrl.mergeAdd (CartCtrl.getOrCreateCart st uid).2.items pid q) with
        | none => simp only [hct] at h; simp at h
        | some total => simp only [hct] at h; simp at h
    · intro hs
      unfold CartCtrl.addToCart
      rw [if_neg hq']
      simp only [hp]
      rw [if_pos hs]
  · intro st' c' h
    obtain ⟨product, total, hf, hs, hct, hc', hst'⟩ :=
      CartCtrl.addToCart_ok_shape st uid pid q st' c' h
    subst hc'
    rfl

/-- Witness for C4 (amended): a missing product id 2 yields NotFound, and a
request of 9 units against stock 5 yields InsufficientStock. -/
theorem C4_witness :
    CartCtrl.addToCart Fix.cartSt 7 2 1 = (Fix.cartSt, .error .productNotFound) ∧
    (CartCtrl.addToCart Fix.cartSt 7 1 9).2 = .error .insufficientStock := by
  constructor
  · exact (C4_amended_addToCart Fix.cartSt 7 2 1 (by decide)).1 rfl
  · exact ((C4_amended_addToCart Fix.cartSt 7 1 9 (by decide)).2.1
      { id := 1, title := "Shirt", price := 10, stock := 5, totalStock := 5 }
      (by decide)).mpr (by decide)

/-! ## Order controller lemmas -/

namespace OrderCtrl

theorem isInsufficientStockFailure_error (e : Resp) :
    isInsufficientStockFailure (α := α) (.error e) = true ↔
      ∃ pid, e = .insufficientStock pid := by
  cases e <;> simp [isInsufficientStockFailure]

theorem buildOrderItems_insufficient (db : DB) (items : List CartItem)
    (hall : ∀ it ∈ items, ∃ v p,
        findVariant db.variants it.productVariant = some v ∧
        findProduct db.products v.productId = some p)
    (hbad : ∃ it, it ∈ items ∧ ∃ v,
        findVariant db.variants it.productVariant = some v ∧
        v.quantity < it.quantity) :
    isInsufficientStockFailure (buildOrderItems db items) = true := by
  induction items with
  | nil =>
    obtain ⟨it, hit, _⟩ := hbad
    cases hit
  | cons it rest ih =>
    obtain ⟨v, p, hv, hp⟩ := hall it (List.mem_cons_self it rest)
    by_cases hlt : v.quantity < it.quantity
    · simp [buildOrderItems, hv, hlt, isInsufficientStockFailure]
    · have hbad' : ∃ it', it' ∈ rest ∧ ∃ v',
          findVariant db.variants it'.productVariant = some v' ∧
          v'.quantity < it'.quantity := by
        obtain ⟨it', hit', v', hv', hlt'⟩ := hbad
        rcases List.mem_cons.mp hit' with rfl | hmem
        · rw [hv] at hv'
          cases hv'
          exact absurd hlt' hlt
        · exact ⟨it', hmem, v', hv', hlt'⟩
      have hall' : ∀ x ∈ rest, ∃ v' p',
          findVariant db.variants x.productVariant = some v' ∧
          findProduct db.products v'.productId = some p' :=
        fun x hx => hall x (List.mem_cons_of_mem _ hx)
      have hrest := ih hall' hbad'
      cases hb : buildOrderItems db rest with
      | error e =>
        rw [hb] at hrest
        simp [buildOrderItems, hv, hlt, hp, hb]
        simpa [isInsufficientStockFailure_error] using hrest
      | ok tail =>
        rw [hb] at hrest
        simp [isInsufficientStockFailure] at hrest

theorem createOrder_error_state (db : DB) (uid : Nat) (addr : String) (e : Resp)
    (h : (createOrder db uid addr).2 = .error e) :
    (createOrder db uid addr).1 = db := by
  unfold createOrder at h ⊢
  cases hc : findCart db.carts uid with
  | none => simp [hc]
  | some cart =>
    simp only [hc] at h ⊢
    by_cases hl : (cart.items.length == 0) = true
    · rw [if_pos hl]
    · rw [if_neg hl] at h ⊢
      cases hb : buildOrderItems db cart.items with
      | error e' => simp [hb]
      | ok oi =>
        simp only [hb] at h
        simp at h

theorem createOrder_ok_shape (db : DB) (uid : Nat) (addr : String) (db' : DB)
    (o : Order) (h : createOrder db uid addr = (db', .ok o)) :
    ∃ cart orderItems,
      findCart db.carts uid = some cart ∧
      buildOrderItems db cart.items = .ok orderItems ∧
      o = { id := db.nextOrderId, userId := uid, total := cart.totalAmount,
            status := "Pending", shippingAddress := addr } ∧
      db'.products = db.products ∧
      db'.variants = decrementVariants db.variants cart.items ∧
      db'.carts = updateFirst (fun c => c.user == uid)
        (fun c => { c with items := [], totalAmount := 0 }) db.carts ∧
      db'.orders = db.orders ++ [o] ∧
      db'.orderProducts = db.orderProducts ++ orderItems.map
        (fun it => { orderId := db.nextOrderId, productId := it.productId,
                     quantity := it.quantity, price := it.price }) ∧
      db'.nextOrderId = db.nextOrderId + 1 := by
  unfold createOrder at h
  cases hc : findCart db.carts uid with
  | none => simp only [hc] at h; simp at h
  | some cart =>
    simp only [hc] at h
    by_cases hl : (cart.items.length == 0) = true
    · rw [if_pos hl] at h
      simp at h
    · rw [if_neg hl] at h
      cases hb : buildOrderItems db cart.items with
      | error e => simp only [hb] at h; simp at h
      | ok orderItems =>
        simp only [hb, Prod.mk.injEq, Except.ok.injEq] at h
        obtain ⟨h1, h2⟩ := h
        subst h2
        subst h1
        exact ⟨cart, orderItems, rfl, hb, rfl, rfl, rfl, rfl, rfl, rfl, rfl⟩

theorem findVariant_decrementVariants (vs : List Variant) (items : List CartItem)
    (vid : Nat) :
    findVariant (decrementVariants vs items) vid =
      (findVariant vs vid).map
        (fun v => { v with quantity := v.quantity - orderedQty items vid }) := by
  induction items generalizing vs with
  | nil =>
    cases h : findVariant vs vid <;>
      simp [decrementVariants, orderedQty, h]
  | cons it rest ih =>
    have hstep : decrementVariants vs (it :: rest) =
        decrementVariants
          (updateFirst (fun v => v.id == it.productVariant)
            (fun v => { v with quantity := v.quantity - it.quantity }) vs) rest := rfl
    rw [hstep, ih]
    by_cases heq : it.productVariant = vid
    · subst heq
      unfold findVariant
      rw [find?_updateFirst_same (fun v : Variant => v.id == it.productVariant)
        (fun v : Variant => { v with quantity := v.quantity - it.quantity })
        (fun x hx => hx)]
      cases h : vs.find? (fun v => v.id == it.productVariant) with
      | none => rfl
      | some v =>
        have hq : orderedQty (it :: rest) it.productVariant =
            it.quantity + orderedQty rest it.productVariant := by
          simp [orderedQty]
        simp [hq, sub_sub]
    · unfold findVariant
      rw [find?_updateFirst_other (fun v : Variant => v.id == it.productVariant)
        (fun v : Variant => v.id == vid)
        (fun v : Variant => { v with quantity := v.quantity - it.quantity })
        (fun x hx => by
          simp only [beq_iff_eq] at hx ⊢
          simp [hx, heq])
        (fun x => rfl)]
      have hq : orderedQty (it :: rest) vid = orderedQty rest vid := by
        simp [orderedQty, List.filter_cons, heq]
      rw [hq]

theorem buildOrderItems_sum (db : DB) (items : List CartItem) (l : List OrderItem)
    (h : buildOrderItems db items = .ok l) :
    (l.map (fun it => it.price * it.quantity)).sum = currentItemsSum db items := by
  induction items generalizing l with
  | nil =>
    simp only [buildOrderItems, Except.ok.injEq] at h
    subst h
    simp [currentItemsSum]
  | cons it rest ih =>
    cases hv : findVariant db.variants it.productVariant with
    | none => simp [buildOrderItems, hv] at h
    | some v =>
      by_cases hlt : v.quantity < it.quantity
      · simp [buildOrderItems, hv, hlt] at h
      · cases hp : findProduct db.products v.productId with
        | none => simp [buildOrderItems, hv, hlt, hp] at h
        | some p =>
          cases hb : buildOrderItems db rest with
          | error e => simp [buildOrderItems, hv, hlt, hp, hb] at h
          | ok tail =>
            simp only [buildOrderItems, hv, hp, hb] at h
            rw [if_neg hlt] at h
            simp only [Except.ok.injEq] at h
            subst h
            have htail := ih tail hb
            simp only [List.map_cons, List.sum_cons, currentItemsSum] at htail ⊢
            rw [htail]
            simp [lineCurrent, hv, hp]

theorem orderProductsSum_map (oid : Nat) (l : List OrderItem) :
    orderProductsSum (l.map (fun it =>
      ({ orderId := oid, productId := it.productId, quantity := it.quantity,
         price := it.price } : OrderProduct))) =
      (l.map (fun it => it.price * it.quantity)).sum := by
  induction l with
  | nil => rfl
  | cons x xs ih =>
    simp only [List.map_cons, orderProductsSum, List.sum_cons] at ih ⊢
    rw [ih]

theorem restockVariant_ok_shape (db : DB) (pid : Nat) (size color : String)
    (q : Int) (db' : DB) (w : Variant)
    (h : restockVariant db pid size color q = (db', .ok w)) :
    ∃ v, findVariantBy db.variants pid size color = some v ∧
      w = { v with quantity := v.quantity + q } ∧
      db'.variants = updateFirst (fun x => x.id == v.id) (fun _ => w) db.variants ∧
      db'.carts = db.carts ∧ db'.orders = db.orders ∧
      db'.orderProducts = db.orderProducts ∧ db'.nextOrderId = db.nextOrderId ∧
      ((findProduct db.products pid = none ∧ db'.products = db.products) ∨
       (∃ p, findProduct db.products pid = some p ∧
         db'.products = updateFirst (fun r => r.id == p.id)
           (fun _ => { p with totalStock := aggregateStock db'.variants pid })
           db.products)) := by
  unfold restockVariant at h
  by_cases hval : size = "" ∨ color = "" ∨ q ≤ 0
  · rw [if_pos hval] at h
    simp at h
  · rw [if_neg hval] at h
    cases hv : findVariantBy db.variants pid size color with
    | none => simp only [hv] at h; simp at h
    | some v =>
      simp only [hv] at h
      cases hp : findProduct db.products pid with
      | none =>
        simp only [hp, Prod.mk.injEq, Except.ok.injEq] at h
        obtain ⟨h1, h2⟩ := h
        subst h2
        subst h1
        exact ⟨v, rfl, rfl, rfl, rfl, rfl, rfl, rfl, Or.inl ⟨rfl, rfl⟩⟩
      | some p =>
        simp only [hp, Prod.mk.injEq, Except.ok.injEq] at h
        obtain ⟨h1, h2⟩ := h
        subst h2
        subst h1
        exact ⟨v, rfl, rfl, rfl, rfl, rfl, rfl, rfl, Or.inr ⟨p, rfl, rfl⟩⟩

theorem findVariant_updateFirst_const_same_id (vs : List Variant) (v w : Variant)
    (hid : w.id = v.id) (hmem : v ∈ vs) :
    findVariant (updateFirst (fun x => x.id == v.id) (fun _ => w) vs) v.id =
      some w := by
  unfold findVariant
  rw [find?_updateFirst_same (fun x : Variant => x.id == v.id)
    (fun _ : Variant => w) (fun x _ => by simp [hid])]
  have hsome : (vs.find? (fun x => x.id == v.id)).isSome = true :=
    List.find?_isSome.mpr ⟨v, hmem, by simp⟩
  obtain ⟨u, hu⟩ := Option.isSome_iff_exists.mp hsome
  rw [hu]
  rfl

theorem findProduct_updateFirst_const (ps : List Product) (p p' : Product)
    (hid : p'.id = p.id) (hfind : findProduct ps p.id = some p) :
    findProduct (updateFirst (fun r => r.id == p.id) (fun _ => p') ps) p.id =
      some p' := by
  unfold findProduct at hfind ⊢
  rw [find?_updateFirst_same (fun r : Product => r.id == p.id)
    (fun _ : Product => p') (fun x _ => by simp [hid])]
  rw [hfind]
  rfl

theorem calculateTotalStock_fields (db : DB) :
    (calculateTotalStock db).variants = db.variants ∧
    (calculateTotalStock db).carts = db.carts ∧
    (calculateTotalStock db).orders = db.orders ∧
    (calculateTotalStock db).orderProducts = db.orderProducts ∧
    (calculateTotalStock db).nextOrderId = db.nextOrderId :=
  ⟨rfl, rfl, rfl, rfl, rfl⟩

theorem findProduct_calculateTotalStock (db : DB) (pid : Nat) :
    findProduct (calculateTotalStock db).products pid =
      (findProduct db.products pid).map
        (fun p => { p with totalStock := aggregateStock db.variants p.id }) := by
  unfold calculateTotalStock findProduct
  rw [List.find?_map]
  rfl

theorem calculateTotalStock_idem (db : DB) :
    calculateTotalStock (calculateTotalStock db) = calculateTotalStock db := by
  unfold calculateTotalStock
  simp only [List.map_map]
  rfl

theorem createOrder_build_error (db : DB) (uid : Nat) (addr : String)
    (cart : Cart) (e : Resp)
    (hc : findCart db.carts uid = some cart)
    (hne : (cart.items.length == 0) = false)
    (hb : buildOrderItems db cart.items = .error e) :
    createOrder db uid addr = (db, .error e) := by
  unfold createOrder
  simp only [hc]
  rw [if_neg (by simp [hne])]
  simp only [hb]

end OrderCtrl

/-! ## Claims about the order-placement workflow and stock reconciliation -/

/-- C1: for every cart whose lines all resolve to existing variants and
products, if some line's quantity exceeds its variant's current stock then
`createOrder` responds 400 InsufficientStock and leaves the whole store
untouched (no Order, no OrderProduct, no stock decrement, no cart change);
moreover every error response of `createOrder` leaves the store untouched —
the full pre-check over all lines precedes any write. -/
theorem C1_insufficient_stock_aborts_without_writes :
    (∀ (db : OrderCtrl.DB) (uid : Nat) (addr : String) (cart : OrderCtrl.Cart),
        OrderCtrl.findCart db.carts uid = some cart →
        (∀ it ∈ cart.items, ∃ v p,
            OrderCtrl.findVariant db.variants it.productVariant = some v ∧
            OrderCtrl.findProduct db.products v.productId = some p) →
        (∃ it, it ∈ cart.items ∧ ∃ v,
            OrderCtrl.findVariant db.variants it.productVariant = some v ∧
            v.quantity < it.quantity) →
        (OrderCtrl.createOrder db uid addr).1 = db ∧
        OrderCtrl.isInsufficientStockFailure
          (OrderCtrl.createOrder db uid addr).2 = true) ∧
    (∀ (db : OrderCtrl.DB) (uid : Nat) (addr : String) (e : OrderCtrl.Resp),
        (OrderCtrl.createOrder db uid addr).2 = .error e →
        (OrderCtrl.createOrder db uid addr).1 = db) := by
  constructor
  · intro db uid addr cart hc hall hbad
    have hne : (cart.items.length == 0) = false := by
      obtain ⟨it, hit, _⟩ := hbad
      cases hitems : cart.items with
      | nil => rw [hitems] at hit; cases hit
      | cons a l => simp [hitems]
    have hins := OrderCtrl.buildOrderItems_insufficient db cart.items hall hbad
    cases hb : OrderCtrl.buildOrderItems db cart.items with
    | ok l =>
      rw [hb] at hins
      simp [OrderCtrl.isInsufficientStockFailure] at hins
    | error e =>
      rw [hb] at hins
      obtain ⟨pid, rfl⟩ := (OrderCtrl.isInsufficientStockFailure_error e).mp hins
      rw [OrderCtrl.createOrder_build_error db uid addr cart _ hc hne hb]
      exact ⟨rfl, rfl⟩
  · exact fun db uid addr e h => OrderCtrl.createOrder_error_state db uid addr e h

/-- Witness for C1: the spec's insufficiency scenario — the cart wants 10
units of variant 11, which holds only 4. -/
theorem C1_witness :
    (OrderCtrl.createOrder Fix.orderDbShort 7 "x").1 = Fix.orderDbShort ∧
    OrderCtrl.isInsufficientStockFailure
      (OrderCtrl.createOrder Fix.orderDbShort 7 "x").2 = true :=
  C1_insufficient_stock_aborts_without_writes.1 Fix.orderDbShort 7 "x"
    { user := 7, items := [{ productVariant := 11, quantity := 10 }],
      totalAmount := 100 }
    rfl
    (by
      intro it hit
      have hone : it = { productVariant := 11, quantity := 10 } := by
        simpa using hit
      subst hone
      exact ⟨{ id := 11, productId := 1, size := "M", color := "red", quantity := 4 },
        { id := 1, title := "Shirt", price := 10, stock := 0, totalStock := 4 },
        rfl, rfl⟩)
    ⟨{ productVariant := 11, quantity := 10 }, by simp,
      { id := 11, productId := 1, size := "M", color := "red", quantity := 4 },
      rfl, by decide⟩

/-- C5: `createOrder` responds 404 Cart-not-found when the user has no cart
record, and 400 EmptyCart when the cart exists with an empty line list; in
both cases the store is returned untouched (no Order, OrderProduct, variant
or cart write). -/
theorem C5_empty_or_missing_cart :
    (∀ (db : OrderCtrl.DB) (uid : Nat) (addr : String),
        OrderCtrl.findCart db.carts uid = none →
        OrderCtrl.createOrder db uid addr = (db, .error .cartNotFound)) ∧
    (∀ (db : OrderCtrl.DB) (uid : Nat) (addr : String) (cart : OrderCtrl.Cart),
        OrderCtrl.findCart db.carts uid = some cart →
        cart.items = [] →
        OrderCtrl.createOrder db uid addr = (db, .error .emptyCart)) := by
  constructor
  · intro db uid addr hc
    unfold OrderCtrl.createOrder
    simp only [hc]
  · intro db uid addr cart hc hempty
    unfold OrderCtrl.createOrder
    simp only [hc]
    rw [if_pos (by simp [hempty])]

/-- Witness for C5: user 9 has no cart record; user 8's cart is empty. -/
theorem C5_witness :
    OrderCtrl.createOrder Fix.orderDb 9 "x" = (Fix.orderDb, .error .cartNotFound) ∧
    OrderCtrl.createOrder Fix.orderDb 8 "x" = (Fix.orderDb, .error .emptyCart) :=
  ⟨C5_empty_or_missing_cart.1 Fix.orderDb 9 "x" rfl,
   C5_empty_or_missing_cart.2 Fix.orderDb 8 "x"
     { user := 8, items := [], totalAmount := 0 } rfl rfl⟩

/-- C7: after every successful `createOrder`, the user's stored cart has an
empty line list and `totalAmount` 0. -/
theorem C7_cart_cleared_after_order (db : OrderCtrl.DB) (uid : Nat)
    (addr : String) (db' : OrderCtrl.DB) (o : OrderCtrl.Order)
    (cart : OrderCtrl.Cart)
    (hc : OrderCtrl.findCart db.carts uid = some cart)
    (h : OrderCtrl.createOrder db uid addr = (db', .ok o)) :
    OrderCtrl.findCart db'.carts uid =
      some { user := cart.user, items := [], totalAmount := 0 } := by
  obtain ⟨cart2, oi, hc2, hb, ho, hp, hv, hcarts, _, _, _⟩ :=
    OrderCtrl.createOrder_ok_shape db uid addr db' o h
  rw [hcarts]
  unfold OrderCtrl.findCart
  rw [find?_updateFirst_same (fun c : OrderCtrl.Cart => c.user == uid)
    (fun c : OrderCtrl.Cart => { c with items := [], totalAmount := 0 })
    (fun x hx => hx)]
  rw [show db.carts.find? (fun c => c.user == uid) =
      OrderCtrl.findCart db.carts uid from rfl]
  rw [hc]
  rfl

/-- Witness for C7: the successful order for user 7 clears that cart. -/
theorem C7_witness :
    OrderCtrl.findCart (OrderCtrl.createOrder Fix.orderDb 7 "x").1.carts 7 =
      some { user := 7, items := [], totalAmount := 0 } :=
  C7_cart_cleared_after_order Fix.orderDb 7 "x"
    (OrderCtrl.createOrder Fix.orderDb 7 "x").1
    { id := 0, userId := 7, total := 30, status := "Pending",
      shippingAddress := "x" }
    { user := 7, items := [{ productVariant := 11, quantity := 2 }],
      totalAmount := 30 }
    rfl rfl

/-- C2 as stated fails on the code: after a successful `createOrder` that
consumes 2 of variant 11 (5 → 3), the parent product's `totalStock` is still
5 while the sum of its variants' quantities is 3 — the workflow never
recomputes the aggregate (there is no step-9 recompute in `createOrder`). -/
theorem C2_counterexample :
    (OrderCtrl.createOrder Fix.orderDb 7 "x").2 =
      .ok { id := 0, userId := 7, total := 30, status := "Pending",
            shippingAddress := "x" } ∧
    OrderCtrl.findProduct (OrderCtrl.createOrder Fix.orderDb 7 "x").1.products 1 =
      some { id := 1, title := "Shirt", price := 10, stock := 0, totalStock := 5 } ∧
    OrderCtrl.aggregateStock (OrderCtrl.createOrder Fix.orderDb 7 "x").1.variants 1 = 3 ∧
    (5 : Int) ≠ 3 :=
  ⟨rfl, rfl, rfl, by decide⟩

/-- C2 (amended): after every successful `createOrder`, each variant's
quantity drops by exactly the total quantity the cart ordered against it,
but the product collection — `totalStock` included — is left completely
unchanged; the aggregate is not recomputed. -/
theorem C2_amended_decrement_no_aggregate (db : OrderCtrl.DB) (uid : Nat)
    (addr : String) (db' : OrderCtrl.DB) (o : OrderCtrl.Order)
    (cart : OrderCtrl.Cart)
    (hc : OrderCtrl.findCart db.carts uid = some cart)
    (h : OrderCtrl.createOrder db uid addr = (db', .ok o)) :
    (∀ vid, OrderCtrl.findVariant db'.variants vid =
        (OrderCtrl.findVariant db.variants vid).map
          (fun v => { v with
            quantity := v.quantity - OrderCtrl.orderedQty cart.items vid })) ∧
    db'.products = db.products := by
  obtain ⟨cart2, oi, hc2, hb, ho, hp, hv, hcarts, _, _, _⟩ :=
    OrderCtrl.createOrder_ok_shape db uid addr db' o h
  rw [hc] at hc2
  injection hc2 with hcc
  subst hcc
  exact ⟨fun vid => by
      rw [hv]
      exact OrderCtrl.findVariant_decrementVariants db.variants cart.items vid,
    hp⟩

/-- Witness for C2 (amended): variant 11 drops from 5 to 3 after the order
of 2 units. -/
theorem C2_witness :
    OrderCtrl.findVariant
      (OrderCtrl.createOrder Fix.orderDbSync 7 "x").1.variants 11 =
      some { id := 11, productId := 1, size := "M", color := "red",
             quantity := 3 } := by
  have h := C2_amended_decrement_no_aggregate Fix.orderDbSync 7 "x"
    (OrderCtrl.createOrder Fix.orderDbSync 7 "x").1
    { id := 0, userId := 7, total := 20, status := "Pending",
      shippingAddress := "x" }
    { user := 7, items := [{ productVariant := 11, quantity := 2 }],
      totalAmount := 20 }
    rfl rfl
  rw [h.1 11]
  rfl

/-- C3 as stated fails on the code: with a stale cached cart total of 30
(current price sum is 20), the order is created with total 30 while its line
items sum to 20 — the total is the cached `cart.totalAmount`, the line items
are priced from the products' current prices, and nothing reconciles them. -/
theorem C3_counterexample :
    (OrderCtrl.createOrder Fix.orderDb 7 "x").2 =
      .ok { id := 0, userId := 7, total := 30, status := "Pending",
            shippingAddress := "x" } ∧
    OrderCtrl.orderProductsSum
      (OrderCtrl.createOrder Fix.orderDb 7 "x").1.orderProducts = 20 ∧
    (30 : Int) ≠ 20 :=
  ⟨rfl, rfl, by decide⟩

/-- C3 (amended): the order's total is exactly the cart's cached
`totalAmount`; it equals the sum over the created line items of (unit price
snapshot × quantity) only under the extra hypothesis that the cached total
agrees with the sum of the lines at the products' current prices (e.g. no
price change since the last cart mutation). -/
theorem C3_amended_total_is_cached_cart_total (db : OrderCtrl.DB) (uid : Nat)
    (addr : String) (db' : OrderCtrl.DB) (o : OrderCtrl.Order)
    (cart : OrderCtrl.Cart)
    (hc : OrderCtrl.findCart db.carts uid = some cart)
    (h : OrderCtrl.createOrder db uid addr = (db', .ok o)) :
    o.total = cart.totalAmount ∧
    (cart.totalAmount = OrderCtrl.currentItemsSum db cart.items →
      o.total = OrderCtrl.orderProductsSum
        (db'.orderProducts.drop db.orderProducts.length)) := by
  obtain ⟨cart2, oi, hc2, hb, ho, hp, hv, hcarts, horders, hops, hnext⟩ :=
    OrderCtrl.createOrder_ok_shape db uid addr db' o h
  rw [hc] at hc2
  injection hc2 with hcc
  subst hcc
  have htot : o.total = cart.totalAmount := by rw [ho]
  refine ⟨htot, ?_⟩
  intro hsync
  rw [htot, hsync, hops, List.drop_left, OrderCtrl.orderProductsSum_map,
    OrderCtrl.buildOrderItems_sum db cart.items oi hb]

/-- Witness for C3 (amended): with the cached total in sync (20 = 2 × 10),
the created order's total equals the line-item sum. -/
theorem C3_witness :
    ({ id := 0, userId := 7, total := 20, status := "Pending",
       shippingAddress := "x" } : OrderCtrl.Order).total =
      OrderCtrl.orderProductsSum
        ((OrderCtrl.createOrder Fix.orderDbSync 7 "x").1.orderProducts.drop
          Fix.orderDbSync.orderProducts.length) :=
  (C3_amended_total_is_cached_cart_total Fix.orderDbSync 7 "x"
    (OrderCtrl.createOrder Fix.orderDbSync 7 "x").1
    { id := 0, userId := 7, total := 20, status := "Pending",
      shippingAddress := "x" }
    { user := 7, items := [{ productVariant := 11, quantity := 2 }],
      totalAmount := 20 }
    rfl rfl).2 rfl

/-- C8: `restockVariant` fails with 400 InvalidArgument whenever the amount
is ≤ 0, returning the store untouched (every variant unchanged); with valid
inputs it fails with 404 NotFound when no variant matches (productId, size,
color), again untouched; and on success it increments the matched variant's
quantity by exactly the amount and, when the parent product exists, sets its
`totalStock` to the sum of its variants' quantities. -/
theorem C8_restock_contract :
    (∀ (db : OrderCtrl.DB) (pid : Nat) (size color : String) (q : Int),
        q ≤ 0 →
        OrderCtrl.restockVariant db pid size color q =
          (db, .error .invalidInput)) ∧
    (∀ (db : OrderCtrl.DB) (pid : Nat) (size color : String) (q : Int),
        ¬(size = "" ∨ color = "" ∨ q ≤ 0) →
        OrderCtrl.findVariantBy db.variants pid size color = none →
        OrderCtrl.restockVariant db pid size color q =
          (db, .error .variantNotFound)) ∧
    (∀ (db : OrderCtrl.DB) (pid : Nat) (size color : String) (q : Int)
        (v : Variant),
        ¬(size = "" ∨ color = "" ∨ q ≤ 0) →
        OrderCtrl.findVariantBy db.variants pid size color = some v →
        (OrderCtrl.restockVariant db pid size color q).2 =
          .ok { v with quantity := v.quantity + q } ∧
        OrderCtrl.findVariant
          (OrderCtrl.restockVariant db pid size color q).1.variants v.id =
          some { v with quantity := v.quantity + q } ∧
        (∀ p, OrderCtrl.findProduct db.products pid = some p →
          OrderCtrl.findProduct
              (OrderCtrl.restockVariant db pid size color q).1.products pid =
            some { p with
                    totalStock :=
                      OrderCtrl.aggregateStock
                        (OrderCtrl.restockVariant db pid size color q).1.variants
                        pid })) := by
  refine ⟨?_, ?_, ?_⟩
  · intro db pid size color q hq
    unfold OrderCtrl.restockVariant
    rw [if_pos (Or.inr (Or.inr hq))]
  · intro db pid size color q hval hv
    unfold OrderCtrl.restockVariant
    rw [if_neg hval]
    simp only [hv]
  · intro db pid size color q v hval hv
    have hok : (OrderCtrl.restockVariant db pid size color q).2 =
        .ok { v with quantity := v.quantity + q } := by
      unfold OrderCtrl.restockVariant
      rw [if_neg hval]
      simp only [hv]
      cases hp : OrderCtrl.findProduct db.products pid <;> simp [hp]
    have h : OrderCtrl.restockVariant db pid size color q =
        ((OrderCtrl.restockVariant db pid size color q).1,
          .ok { v with quantity := v.quantity + q }) := by
      rw [← hok]
    obtain ⟨v2, hv2, hw, hvars, _, _, _, _, hdisj⟩ :=
      OrderCtrl.restockVariant_ok_shape db pid size color q
        (OrderCtrl.restockVariant db pid size color q).1
        { v with quantity := v.quantity + q } h
    rw [hv] at hv2
    injection hv2 with hvv
    subst hvv
    refine ⟨hok, ?_, ?_⟩
    · rw [hvars]
      refine OrderCtrl.findVariant_updateFirst_const_same_id db.variants v _
        (by rw [hw]) ?_
      have hv3 := hv
      unfold OrderCtrl.findVariantBy at hv3
      exact List.mem_of_find?_eq_some hv3
    · intro p hp
      rcases hdisj with ⟨hnone, _⟩ | ⟨p0, hp0, hprods⟩
      · rw [hp] at hnone
        cases hnone
      · rw [hp0] at hp
        injection hp with hpp
        subst hpp
        have hid0 : p0.id = pid := by
          have hf := hp0
          unfold OrderCtrl.findProduct at hf
          simpa using List.find?_some hf
        rw [hprods, ← hid0]
        exact OrderCtrl.findProduct_updateFirst_const db.products p0 _ rfl
          (by rw [hid0]; exact hp0)

/-- Witness for C8: amount −3 is rejected, a non-existent XL variant is 404,
and restocking variant 11 by 5 yields quantity 10. -/
theorem C8_witness :
    OrderCtrl.restockVariant Fix.restockDb 1 "M" "red" (-3) =
      (Fix.restockDb, .error .invalidInput) ∧
    OrderCtrl.restockVariant Fix.restockDb 1 "XL" "red" 5 =
      (Fix.restockDb, .error .variantNotFound) ∧
    OrderCtrl.findVariant
      (OrderCtrl.restockVariant Fix.restockDb 1 "M" "red" 5).1.variants 11 =
      some { id := 11, productId := 1, size := "M", color := "red",
             quantity := 10 } := by
  refine ⟨C8_restock_contract.1 Fix.restockDb 1 "M" "red" (-3) (by decide),
    C8_restock_contract.2.1 Fix.restockDb 1 "XL" "red" 5 (by decide) rfl, ?_⟩
  exact (C8_restock_contract.2.2 Fix.restockDb 1 "M" "red" 5
    { id := 11, productId := 1, size := "M", color := "red", quantity := 5 }
    (by decide) rfl).2.1

/-- C9: `calculateTotalStock` rewrites only each product's `totalStock`
(variants, carts, orders, line items and the id counter are untouched),
setting it to the direct sum of that product's variants' quantities; it is
idempotent; and run immediately after a successful `restock(p, size, color,
5)` it leaves the restocked parent product's record exactly as restock wrote
it — restock already synced the aggregate to the same direct sum. -/
theorem C9_calculateTotalStock_repair :
    (∀ db : OrderCtrl.DB,
        (OrderCtrl.calculateTotalStock db).variants = db.variants ∧
        (OrderCtrl.calculateTotalStock db).carts = db.carts ∧
        (OrderCtrl.calculateTotalStock db).orders = db.orders ∧
        (OrderCtrl.calculateTotalStock db).orderProducts = db.orderProducts ∧
        (OrderCtrl.calculateTotalStock db).nextOrderId = db.nextOrderId ∧
        (∀ pid, OrderCtrl.findProduct
            (OrderCtrl.calculateTotalStock db).products pid =
          (OrderCtrl.findProduct db.products pid).map
            (fun p => { p with
              totalStock := OrderCtrl.aggregateStock db.variants p.id }))) ∧
    (∀ db : OrderCtrl.DB,
        OrderCtrl.calculateTotalStock (OrderCtrl.calculateTotalStock db) =
          OrderCtrl.calculateTotalStock db) ∧
    (∀ (db : OrderCtrl.DB) (pid : Nat) (size color : String)
        (db' : OrderCtrl.DB) (w : Variant) (p : Product),
        OrderCtrl.restockVariant db pid size color 5 = (db', .ok w) →
        OrderCtrl.findProduct db.products pid = some p →
        OrderCtrl.findProduct
            (OrderCtrl.calculateTotalStock db').products pid =
          OrderCtrl.findProduct db'.products pid) := by
  refine ⟨?_, OrderCtrl.calculateTotalStock_idem, ?_⟩
  · intro db
    exact ⟨rfl, rfl, rfl, rfl, rfl,
      fun pid => OrderCtrl.findProduct_calculateTotalStock db pid⟩
  · intro db pid size color db' w p h hp
    obtain ⟨v, hv, hw, hvars, _, _, _, _, hdisj⟩ :=
      OrderCtrl.restockVariant_ok_shape db pid size color 5 db' w h
    rcases hdisj with ⟨hnone, _⟩ | ⟨p0, hp0, hprods⟩
    · rw [hp] at hnone
      cases hnone
    · rw [hp0] at hp
      injection hp with hpp
      subst hpp
      have hid0 : p0.id = pid := by
        have hf := hp0
        unfold OrderCtrl.findProduct at hf
        simpa using List.find?_some hf
      have hP' : OrderCtrl.findProduct db'.products pid =
          some { p0 with
            totalStock := OrderCtrl.aggregateStock db'.variants pid } := by
        rw [hprods, ← hid0]
        exact OrderCtrl.findProduct_updateFirst_const db.products p0 _ rfl
          (by rw [hid0]; exact hp0)
      rw [OrderCtrl.findProduct_calculateTotalStock, hP']
      have hvars' : (OrderCtrl.calculateTotalStock db').variants = db'.variants := rfl
      simp [hid0]

/-- Witness for C9: restocking variant 11 by 5 and then repairing the
aggregates leaves product 1's record unchanged. -/
theorem C9_witness :
    OrderCtrl.findProduct
      (OrderCtrl.calculateTotalStock
        (OrderCtrl.restockVariant Fix.restockDb 1 "M" "red" 5).1).products 1 =
      OrderCtrl.findProduct
        (OrderCtrl.restockVariant Fix.restockDb 1 "M" "red" 5).1.products 1 :=
  C9_calculateTotalStock_repair.2.2 Fix.restockDb 1 "M" "red"
    (OrderCtrl.restockVariant Fix.restockDb 1 "M" "red" 5).1
    { id := 11, productId := 1, size := "M", color := "red", quantity := 10 }
    { id := 1, title := "Shirt", price := 10, stock := 0, totalStock := 7 }
    rfl rfl

end SemDpom
